import Mathlib

/-!
Verification of the `cpc` repository's platform-bridge layer and of the
social-content core that the bridge binds to.

The repository ships two C++ JNI shims:
* `src/apps/android/app/src/main/cpp/native-lib.cpp` — six wrappers
  (`createPostNative`, `getTimelineNative`, `getPostNative`,
  `createRelationshipNative`, `getFollowersNative`, `getFollowingNative`)
  around the external `*_native` core functions;
* `src/mobile/android/native-lib/src/main/cpp/thumbnail_generator.cpp` —
  one wrapper around `generate_model_thumbnail`.

The social core itself (`cpc_core`) is not part of the supplied sources;
only its `extern "C"` declarations and callers are. Its behaviour is
modelled below from the specification (`Modelled from the spec:` doc
comments mark those definitions).
-/

/-- A Java (JNI) string, as handed to a JNI entry point. -/
structure JString where
  chars : String
deriving DecidableEq, Repr

/-- A NUL-terminated C string at the FFI boundary. -/
structure CString where
  bytes : String
deriving DecidableEq, Repr

/-- Model of JNI `GetStringUTFChars`: decode a Java string to a C string. -/
def getStringUTFChars (s : JString) : CString :=
  ⟨s.chars⟩

/-- Model of JNI `NewStringUTF`: convert a C string back to a Java string. -/
def newStringUTF (s : CString) : JString :=
  ⟨s.bytes⟩

/-- The external social-core C ABI declared in `native-lib.cpp` lines 6-13:
each field is one of the `extern "C"` `*_native` functions. The bridge
wrappers are parameterised over this record, since the core's code is not
part of the repository. `jint` arguments are modelled as `Int`. -/
structure SocialCore where
  create_post_native : CString → CString
  get_timeline_native : CString → Int → Int → CString
  get_post_native : CString → CString
  create_relationship_native : CString → CString → CString
  get_followers_native : CString → CString
  get_following_native : CString → CString

/-- `Java_com_cpc_social_ffi_SocialNative_createPostNative`: decode the JSON
argument, log, call the core, re-encode the result. The returned pair is
(result string, log messages emitted). `ReleaseStringUTFChars` only frees
the decoded buffer and has no observable effect on the result. -/
def createPostNative (core : SocialCore) (post_json : JString) : JString × List String :=
  let post_json_str := getStringUTFChars post_json
  let result := core.create_post_native post_json_str
  (newStringUTF result, ["Creating post from JSON"])

/-- `Java_com_cpc_social_ffi_SocialNative_getTimelineNative`. -/
def getTimelineNative (core : SocialCore) (user_id : JString) (limit offset : Int) :
    JString × List String :=
  let user_id_str := getStringUTFChars user_id
  let result := core.get_timeline_native user_id_str limit offset
  (newStringUTF result, ["Getting timeline for user"])

/-- `Java_com_cpc_social_ffi_SocialNative_getPostNative`. -/
def getPostNative (core : SocialCore) (post_id : JString) : JString × List String :=
  let post_id_str := getStringUTFChars post_id
  let result := core.get_post_native post_id_str
  (newStringUTF result, ["Getting post by ID"])

/-- `Java_com_cpc_social_ffi_SocialNative_createRelationshipNative`. -/
def createRelationshipNative (core : SocialCore) (follower_id followed_id : JString) :
    JString × List String :=
  let follower_id_str := getStringUTFChars follower_id
  let followed_id_str := getStringUTFChars followed_id
  let result := core.create_relationship_native follower_id_str followed_id_str
  (newStringUTF result, ["Creating relationship"])

/-- `Java_com_cpc_social_ffi_SocialNative_getFollowersNative`. -/
def getFollowersNative (core : SocialCore) (user_id : JString) : JString × List String :=
  let user_id_str := getStringUTFChars user_id
  let result := core.get_followers_native user_id_str
  (newStringUTF result, ["Getting followers for user"])

/-- `Java_com_cpc_social_ffi_SocialNative_getFollowingNative`. -/
def getFollowingNative (core : SocialCore) (user_id : JString) : JString × List String :=
  let user_id_str := getStringUTFChars user_id
  let result := core.get_following_native user_id_str
  (newStringUTF result, ["Getting following for user"])

/-- The external thumbnail C ABI from `cpc_core.h` as called by
`thumbnail_generator.cpp`: `generate_model_thumbnail(model_path,
output_path, size)` returns a null pointer on success and an error string
on failure; the `unsigned int` size is modelled as `Nat`. -/
structure ThumbnailCore where
  generate_model_thumbnail : CString → CString → Nat → Option CString

/-- C `static_cast<unsigned int>(size)` applied to a `jint` (32-bit signed):
conversion to `unsigned int` is reduction modulo 2^32. -/
def jintToUnsignedInt (size : Int) : Nat :=
  (size % (2 ^ 32 : Int)).toNat

/-- `Java_com_cpcstudio_thumbnail_ThumbnailGenerator_generateThumbnail`:
decode the two path arguments, call `generate_model_thumbnail` with
`static_cast<unsigned int>(size)`, and return the error string re-encoded
as a Java string when it is non-null, `nullptr` (here `none`) otherwise. -/
def generateThumbnail (core : ThumbnailCore) (modelPath outputPath : JString)
    (size : Int) : Option JString :=
  let model_path := getStringUTFChars modelPath
  let output_path := getStringUTFChars outputPath
  let error := core.generate_model_thumbnail model_path output_path (jintToUnsignedInt size)
  match error with
  | some e => some (newStringUTF e)
  | none => none

/-- Modelled from the spec: the core's error taxonomy (spec §7), restricted
to the errors the modelled operations can produce. The implementation of
`cpc_core` is not among the supplied sources. -/
inductive CoreError where
  | UnknownUser
  | NotFound
  | DuplicateEdge
  | SelfFollow
  | EmptyBody
  | InvalidPagination
deriving DecidableEq, Repr

/-- Modelled from the spec: a Post record (spec §3), `{id, author_id, body,
created_at}`, immutable once created. Server-generated identifiers are
modelled as naturals drawn from a counter. -/
structure Post where
  id : Nat
  author_id : String
  body : String
  created_at : Nat
deriving DecidableEq, Repr

/-- Modelled from the spec: a follow edge (spec §3), `{follower_id,
followed_id, created_at}`, directed and unique per ordered pair. -/
structure Edge where
  follower_id : String
  followed_id : String
  created_at : Nat
deriving DecidableEq, Repr

/-- Modelled from the spec: a timeline entry (spec §3), the read-only
projection `{post, author_id}`. -/
structure TimelineEntry where
  post : Post
  author_id : String
deriving DecidableEq, Repr

/-- Modelled from the spec: the mutable state of the core — the user set,
the append-only Post Store, the Relationship Store's edge list (in creation
order), the next server-generated post id, and a logical clock supplying
`created_at` timestamps. The `cpc_core` implementation is not among the
supplied sources. -/
structure CoreState where
  users : List String
  posts : List Post
  edges : List Edge
  next_post_id : Nat
  clock : Nat
deriving DecidableEq, Repr

/-- Modelled from the spec: `create_post(author_id, body)` (spec §4.2) —
fails with `UnknownUser` for a missing author and `EmptyBody` for an empty
body; otherwise appends a post with a fresh server-generated id and the
current timestamp. Returns the result together with the (possibly updated)
state; a failing call leaves the state unchanged. -/
def create_post (s : CoreState) (author_id body : String) :
    Except CoreError Post × CoreState :=
  if author_id ∈ s.users then
    if body = "" then (.error .EmptyBody, s)
    else
      let p : Post :=
        { id := s.next_post_id, author_id := author_id, body := body, created_at := s.clock }
      (.ok p,
        { s with posts := s.posts ++ [p], next_post_id := s.next_post_id + 1,
                 clock := s.clock + 1 })
  else (.error .UnknownUser, s)

/-- Modelled from the spec: `get_post(post_id)` (spec §4.2) — the stored
post with that id, or `NotFound`. -/
def get_post (s : CoreState) (post_id : Nat) : Except CoreError Post :=
  match s.posts.find? (fun p => p.id = post_id) with
  | some p => .ok p
  | none => .error .NotFound

/-- Modelled from the spec: `create_relationship(follower_id, followed_id)`
(spec §4.1) — rejects self-follow (`SelfFollow`, checked first so that
`(A,A)` always fails with it), unknown endpoints (`UnknownUser`), and an
already-present ordered pair (`DuplicateEdge`); otherwise appends the edge.
A failing call leaves the state unchanged. -/
def create_relationship (s : CoreState) (follower_id followed_id : String) :
    Except CoreError Edge × CoreState :=
  if follower_id = followed_id then (.error .SelfFollow, s)
  else if follower_id ∈ s.users ∧ followed_id ∈ s.users then
    if s.edges.any (fun e => e.follower_id = follower_id ∧ e.followed_id = followed_id) then
      (.error .DuplicateEdge, s)
    else
      let e : Edge :=
        { follower_id := follower_id, followed_id := followed_id, created_at := s.clock }
      (.ok e, { s with edges := s.edges ++ [e], clock := s.clock + 1 })
  else (.error .UnknownUser, s)

/-- Modelled from the spec: the identifiers user `u` follows, most recently
followed first (spec §4.1); edges are stored in creation order, so the
reversed projection is exactly most-recent-first. -/
def followingIds (s : CoreState) (u : String) : List String :=
  ((s.edges.filter (fun e => e.follower_id = u)).map (fun e => e.followed_id)).reverse

/-- Modelled from the spec: the identifiers of the followers of `u`, most
recently followed first (spec §4.1). -/
def followerIds (s : CoreState) (u : String) : List String :=
  ((s.edges.filter (fun e => e.followed_id = u)).map (fun e => e.follower_id)).reverse

/-- Modelled from the spec: `get_following(user_id)` (spec §4.1/§4.4) —
`UnknownUser` on a missing user, otherwise the followed identifiers. -/
def get_following (s : CoreState) (user_id : String) : Except CoreError (List String) :=
  if user_id ∈ s.users then .ok (followingIds s user_id) else .error .UnknownUser

/-- Modelled from the spec: `get_followers(user_id)` (spec §4.1/§4.4). -/
def get_followers (s : CoreState) (user_id : String) : Except CoreError (List String) :=
  if user_id ∈ s.users then .ok (followerIds s user_id) else .error .UnknownUser

/-- The timeline order of spec §4.3: `p` precedes `q` when `p.created_at`
is larger, with larger post id first on equal timestamps (`created_at`
descending, id-descending tie-break). -/
def tlBefore (p q : Post) : Prop :=
  q.created_at < p.created_at ∨ (q.created_at = p.created_at ∧ q.id ≤ p.id)

instance : DecidableRel tlBefore := fun p q => by
  unfold tlBefore; infer_instance

instance : IsTotal Post tlBefore :=
  ⟨fun p q => by simp only [tlBefore]; omega⟩

instance : IsTrans Post tlBefore :=
  ⟨fun p q r hpq hqr => by simp only [tlBefore] at *; omega⟩

/-- Modelled from the spec: the maximum to which `limit` is clamped
(spec §4.3, "a sane maximum (e.g., 100)"). -/
def maxTimelineLimit : Nat := 100

/-- Modelled from the spec: the full merged feed of spec §4.3 — the posts
of the followed authors in global `created_at`-descending order with the
id-descending tie-break (spec §4.3 leaves the choice between a streaming
k-way merge and full-materialise-then-sort free and mandates only the
global order, modelled here as a sort), projected to timeline entries. -/
def timelineAll (s : CoreState) (user_id : String) : List TimelineEntry :=
  let authors := followingIds s user_id
  let merged := List.insertionSort tlBefore
    (s.posts.filter (fun p => p.author_id ∈ authors))
  merged.map (fun p => { post := p, author_id := p.author_id })

/-- Modelled from the spec: `get_timeline(user_id, limit, offset)` (spec
§4.3) — `UnknownUser` for a missing user; `InvalidPagination` for negative
`limit` or `offset`; otherwise the globally ordered feed with `offset`
skipped and then at most `min limit 100` taken (`limit` clamped). -/
def get_timeline (s : CoreState) (user_id : String) (limit offset : Int) :
    Except CoreError (List TimelineEntry) :=
  if user_id ∈ s.users then
    if limit < 0 ∨ offset < 0 then .error .InvalidPagination
    else
      .ok (((timelineAll s user_id).drop offset.toNat).take
        (min limit.toNat maxTimelineLimit))
  else .error .UnknownUser

/-- Well-formedness of a core state, as maintained by the modelled
operations: post ids are pairwise distinct and below the id counter, post
authors and edge endpoints are known users, no edge is a self-follow, and
edges are unique per ordered pair. -/
def WF (s : CoreState) : Prop :=
  (s.posts.map Post.id).Nodup ∧
  (∀ p ∈ s.posts, p.id < s.next_post_id) ∧
  (∀ p ∈ s.posts, p.author_id ∈ s.users) ∧
  (∀ e ∈ s.edges, e.follower_id ∈ s.users ∧ e.followed_id ∈ s.users ∧
    e.follower_id ≠ e.followed_id) ∧
  (s.edges.map (fun e => (e.follower_id, e.followed_id))).Nodup

instance (s : CoreState) : Decidable (WF s) := by
  unfold WF; infer_instance

/-- C1: every social JNI wrapper is a pure pass-through — it decodes each
Java string argument with `GetStringUTFChars`, calls the corresponding
`*_native` core function with the arguments in the same order (for
`getTimelineNative` with `limit` and `offset` unchanged), and returns
exactly the core's result converted back with `NewStringUTF`, adding no
logic of its own to the result. -/
theorem bridge_wrappers_forward :
    (∀ (core : SocialCore) (j : JString),
      (createPostNative core j).1 = newStringUTF (core.create_post_native (getStringUTFChars j))) ∧
    (∀ (core : SocialCore) (u : JString) (limit offset : Int),
      (getTimelineNative core u limit offset).1 =
        newStringUTF (core.get_timeline_native (getStringUTFChars u) limit offset)) ∧
    (∀ (core : SocialCore) (j : JString),
      (getPostNative core j).1 = newStringUTF (core.get_post_native (getStringUTFChars j))) ∧
    (∀ (core : SocialCore) (a b : JString),
      (createRelationshipNative core a b).1 =
        newStringUTF (core.create_relationship_native (getStringUTFChars a) (getStringUTFChars b))) ∧
    (∀ (core : SocialCore) (u : JString),
      (getFollowersNative core u).1 = newStringUTF (core.get_followers_native (getStringUTFChars u))) ∧
    (∀ (core : SocialCore) (u : JString),
      (getFollowingNative core u).1 = newStringUTF (core.get_following_native (getStringUTFChars u))) :=
  ⟨fun _ _ => rfl, fun _ _ _ _ => rfl, fun _ _ => rfl,
   fun _ _ _ => rfl, fun _ _ => rfl, fun _ _ => rfl⟩

/-- C2: the thumbnail bridge returns `none` (null, no error indicator)
exactly when `generate_model_thumbnail` returns a null error pointer, and
otherwise returns the core's error string unchanged (re-encoded as a Java
string); equivalently it is `Option.map newStringUTF` of the core's
result. -/
theorem thumbnail_bridge_error_forwarding (core : ThumbnailCore)
    (modelPath outputPath : JString) (size : Int) :
    generateThumbnail core modelPath outputPath size =
      (core.generate_model_thumbnail (getStringUTFChars modelPath)
        (getStringUTFChars outputPath) (jintToUnsignedInt size)).map newStringUTF ∧
    (generateThumbnail core modelPath outputPath size = none ↔
      core.generate_model_thumbnail (getStringUTFChars modelPath)
        (getStringUTFChars outputPath) (jintToUnsignedInt size) = none) := by
  cases h : core.generate_model_thumbnail (getStringUTFChars modelPath)
      (getStringUTFChars outputPath) (jintToUnsignedInt size) <;>
    simp [generateThumbnail, h]

/-- C10: the thumbnail bridge forwards the `jint` size to the core as
`size % 2^32` interpreted as unsigned (`static_cast<unsigned int>`); in
particular `-1` is forwarded as `4294967295`, not rejected or flagged. -/
theorem thumbnail_size_cast_modulo :
    (∀ (core : ThumbnailCore) (m o : JString) (size : Int),
      generateThumbnail core m o size =
        (core.generate_model_thumbnail (getStringUTFChars m) (getStringUTFChars o)
          ((size % (2 ^ 32 : Int)).toNat)).map newStringUTF) ∧
    jintToUnsignedInt (-1) = 4294967295 ∧
    (∀ (core : ThumbnailCore) (m o : JString),
      generateThumbnail core m o (-1) =
        (core.generate_model_thumbnail (getStringUTFChars m) (getStringUTFChars o)
          4294967295).map newStringUTF) := by
  refine ⟨fun core m o size => ?_, by decide, fun core m o => ?_⟩
  · rw [show ((size % (2 ^ 32 : Int)).toNat) = jintToUnsignedInt size from rfl]
    cases h : core.generate_model_thumbnail (getStringUTFChars m) (getStringUTFChars o)
        (jintToUnsignedInt size) <;> simp [generateThumbnail, h]
  · rw [show (4294967295 : Nat) = jintToUnsignedInt (-1) from by decide]
    cases h : core.generate_model_thumbnail (getStringUTFChars m) (getStringUTFChars o)
        (jintToUnsignedInt (-1)) <;> simp [generateThumbnail, h]

instance {ε α : Type} [DecidableEq ε] [DecidableEq α] : DecidableEq (Except ε α)
  | .error e, .error f =>
    if h : e = f then .isTrue (by rw [h]) else .isFalse (by simp [h])
  | .error _, .ok _ => .isFalse (by simp)
  | .ok _, .error _ => .isFalse (by simp)
  | .ok a, .ok b =>
    if h : a = b then .isTrue (by rw [h]) else .isFalse (by simp [h])

/-- A concrete well-formed state used by the witnesses: users `alice` and
`bob`, `bob` follows `alice`, and `alice` has authored two posts. -/
def demoState : CoreState :=
  { users := ["alice", "bob"]
    posts := [{ id := 0, author_id := "alice", body := "first", created_at := 1 },
              { id := 1, author_id := "alice", body := "second", created_at := 2 }]
    edges := [{ follower_id := "bob", followed_id := "alice", created_at := 0 }]
    next_post_id := 2
    clock := 3 }

/-- C8: `create_relationship(A, A)` always fails with `SelfFollow` and
leaves the state unchanged; moreover no call to `create_relationship` ever
adds a self-follow edge to a state free of them. -/
theorem self_follow_always_rejected :
    (∀ (s : CoreState) (a : String),
      create_relationship s a a = (.error .SelfFollow, s)) ∧
    (∀ (s : CoreState) (a b : String),
      (∀ e ∈ s.edges, e.follower_id ≠ e.followed_id) →
      ∀ e ∈ (create_relationship s a b).2.edges, e.follower_id ≠ e.followed_id) := by
  constructor
  · intro s a
    simp [create_relationship]
  · intro s a b hs e he
    by_cases hab : a = b
    · rw [create_relationship, if_pos hab] at he
      exact hs e he
    · rw [create_relationship, if_neg hab] at he
      split_ifs at he with hmem hdup
      · exact hs e he
      · rcases List.mem_append.mp he with h | h
        · exact hs e h
        · rcases List.mem_singleton.mp h with rfl
          exact hab
      · exact hs e he

/-- Witness for C8 at concrete inputs: `create_relationship(demoState,
bob, bob)` fails with `SelfFollow` leaving the state unchanged, and a
`(bob, alice)` call on the self-follow-free `demoState` yields a state
with no self-follow edge. -/
theorem self_follow_always_rejected_witness :
    create_relationship demoState "bob" "bob" = (.error .SelfFollow, demoState) ∧
    ∀ e ∈ (create_relationship demoState "bob" "alice").2.edges,
      e.follower_id ≠ e.followed_id :=
  ⟨self_follow_always_rejected.1 demoState "bob",
   self_follow_always_rejected.2 demoState "bob" "alice" (by decide)⟩

/-- C7: if `create_relationship(A, B)` has succeeded, a second
`create_relationship(A, B)` on the resulting state fails with
`DuplicateEdge` and leaves the stored state (hence the edge set)
unchanged. -/
theorem duplicate_relationship_rejected (s s₁ : CoreState) (a b : String) (ed : Edge)
    (h : create_relationship s a b = (.ok ed, s₁)) :
    create_relationship s₁ a b = (.error .DuplicateEdge, s₁) := by
  rw [create_relationship] at h
  split_ifs at h with hab hmem hdup
  · simp at h
  · simp at h
  · simp only [Prod.mk.injEq, Except.ok.injEq] at h
    obtain ⟨hed, hs⟩ := h
    subst hs
    rw [create_relationship, if_neg hab, if_pos (show _ ∧ _ from hmem)]
    split_ifs with hd
    · rfl
    · apply absurd _ hd
      refine List.any_eq_true.mpr
        ⟨{ follower_id := a, followed_id := b, created_at := s.clock },
          List.mem_append_right _ (List.mem_cons_self _ _), ?_⟩
      simp
  · simp at h

/-- The state after `bob` additionally follows his reader `alice`
(a fresh, non-duplicate edge over `demoState`). -/
def demoState1 : CoreState := (create_relationship demoState "alice" "bob").2

/-- Witness for C7: after `create_relationship(demoState, alice, bob)`
succeeds, repeating the call fails with `DuplicateEdge` and returns the
state unchanged. -/
theorem duplicate_relationship_rejected_witness :
    create_relationship demoState1 "alice" "bob" = (.error .DuplicateEdge, demoState1) :=
  duplicate_relationship_rejected demoState demoState1 "alice" "bob"
    { follower_id := "alice", followed_id := "bob", created_at := 3 } (by decide)

/-- C6: on a well-formed state, if `create_post(author_id, body)` succeeds
and returns post `p`, then `get_post(p.id)` on the resulting state succeeds
and returns the identical record. -/
theorem create_post_then_get_post (s s' : CoreState) (a b : String) (p : Post)
    (hwf : WF s) (h : create_post s a b = (.ok p, s')) :
    get_post s' p.id = .ok p := by
  rw [create_post] at h
  split_ifs at h with ha hb
  · simp at h
  · simp only [Prod.mk.injEq, Except.ok.injEq] at h
    obtain ⟨hp, hs⟩ := h
    subst hs
    subst hp
    have hnone : s.posts.find? (fun q => q.id = s.next_post_id) = none :=
      List.find?_eq_none.mpr fun q hq => by
        have hlt := hwf.2.1 q hq
        simp only [decide_eq_true_eq]
        omega
    simp [get_post, List.find?_append, hnone]
  · simp at h

/-- The state after `bob` authors the post `hi` over `demoState`. -/
def demoState2 : CoreState := (create_post demoState "bob" "hi").2

/-- Witness for C6: `create_post(demoState, bob, hi)` succeeds with post
id 2, and `get_post(2)` on the resulting state returns the same record. -/
theorem create_post_then_get_post_witness :
    WF demoState ∧
    get_post demoState2 2 = .ok { id := 2, author_id := "bob", body := "hi", created_at := 3 } :=
  ⟨by decide,
   create_post_then_get_post demoState demoState2 "bob" "hi"
     { id := 2, author_id := "bob", body := "hi", created_at := 3 } (by decide) (by decide)⟩

/-- Membership in the followed-identifier projection is exactly the
existence of a follow edge. -/
theorem mem_followingIds (s : CoreState) (a b : String) :
    b ∈ followingIds s a ↔ ∃ e ∈ s.edges, e.follower_id = a ∧ e.followed_id = b := by
  simp only [followingIds, List.mem_reverse, List.mem_map, List.mem_filter,
    decide_eq_true_eq]
  tauto

/-- Membership in the follower-identifier projection is exactly the
existence of a follow edge. -/
theorem mem_followerIds (s : CoreState) (b a : String) :
    a ∈ followerIds s b ↔ ∃ e ∈ s.edges, e.follower_id = a ∧ e.followed_id = b := by
  simp only [followerIds, List.mem_reverse, List.mem_map, List.mem_filter,
    decide_eq_true_eq]
  tauto

/-- `B` occurs in a successful `get_following(A)` response. -/
def memFollowing (s : CoreState) (a b : String) : Prop :=
  ∃ l, get_following s a = .ok l ∧ b ∈ l

/-- `A` occurs in a successful `get_followers(B)` response. -/
def memFollowers (s : CoreState) (b a : String) : Prop :=
  ∃ l, get_followers s b = .ok l ∧ a ∈ l

/-- C9: on a well-formed state, `B` is in the sequence returned by
`get_following(A)` if and only if `A` is in the sequence returned by
`get_followers(B)`. -/
theorem followers_following_inverse (s : CoreState) (A B : String) (hwf : WF s) :
    memFollowing s A B ↔ memFollowers s B A := by
  constructor
  · rintro ⟨l, hok, hmem⟩
    rw [get_following] at hok
    split_ifs at hok with hA
    · simp only [Except.ok.injEq] at hok
      subst hok
      obtain ⟨e, he, hf, hb⟩ := (mem_followingIds s A B).mp hmem
      have hB : B ∈ s.users := hb ▸ (hwf.2.2.2.1 e he).2.1
      exact ⟨followerIds s B, by rw [get_followers, if_pos hB],
        (mem_followerIds s B A).mpr ⟨e, he, hf, hb⟩⟩
  · rintro ⟨l, hok, hmem⟩
    rw [get_followers] at hok
    split_ifs at hok with hB
    · simp only [Except.ok.injEq] at hok
      subst hok
      obtain ⟨e, he, hf, hb⟩ := (mem_followerIds s B A).mp hmem
      have hA : A ∈ s.users := hf ▸ (hwf.2.2.2.1 e he).1
      exact ⟨followingIds s A, by rw [get_following, if_pos hA],
        (mem_followingIds s A B).mpr ⟨e, he, hf, hb⟩⟩

/-- Witness for C9: in `demoState`, `alice` is in `get_following(bob)` and
equivalently `bob` is in `get_followers(alice)`. -/
theorem followers_following_inverse_witness :
    WF demoState ∧
    (memFollowing demoState "bob" "alice" ↔ memFollowers demoState "alice" "bob") :=
  ⟨by decide, followers_following_inverse demoState "bob" "alice" (by decide)⟩

/-- The ordering C3 asserts of returned entries: the earlier entry's
`created_at` is at least the later one's, and on equal timestamps the
earlier entry has the strictly larger post id. -/
def tlEntryOrdered (x y : TimelineEntry) : Prop :=
  y.post.created_at ≤ x.post.created_at ∧
  (x.post.created_at = y.post.created_at → y.post.id < x.post.id)

/-- C3: on a well-formed state, any two entries returned by a single
`get_timeline` call are ordered: the earlier-positioned entry has
`created_at` greater than or equal to the later one's, and on equal
`created_at` the earlier entry has the larger post id. -/
theorem timeline_entries_ordered (s : CoreState) (u : String) (limit offset : Int)
    (entries : List TimelineEntry) (hwf : WF s)
    (h : get_timeline s u limit offset = .ok entries) :
    entries.Pairwise tlEntryOrdered := by
  rw [get_timeline] at h
  split_ifs at h with hu hp
  simp only [Except.ok.injEq] at h
  subst h
  have hsub : ((timelineAll s u).drop offset.toNat).take (min limit.toNat maxTimelineLimit)
      |>.Sublist (timelineAll s u) :=
    (List.take_sublist _ _).trans (List.drop_sublist _ _)
  refine List.Pairwise.sublist hsub ?_
  rw [timelineAll]
  refine List.pairwise_map.mpr ?_
  have hsorted : List.Pairwise tlBefore (List.insertionSort tlBefore
      (s.posts.filter (fun p => p.author_id ∈ followingIds s u))) :=
    List.sorted_insertionSort tlBefore _
  have hnodup : ((List.insertionSort tlBefore
      (s.posts.filter (fun p => p.author_id ∈ followingIds s u))).map Post.id).Nodup :=
    (((List.perm_insertionSort tlBefore _).map Post.id).nodup_iff).mpr
      (List.Nodup.sublist ((List.filter_sublist s.posts).map Post.id) hwf.1)
  have hne : List.Pairwise (fun p q : Post => p.id ≠ q.id)
      (List.insertionSort tlBefore
        (s.posts.filter (fun p => p.author_id ∈ followingIds s u))) :=
    List.pairwise_map.mp hnodup
  refine (hsorted.and hne).imp ?_
  rintro p q ⟨hle, hne2⟩
  rw [tlBefore] at hle
  simp only [tlEntryOrdered]
  omega

/-- The timeline `get_timeline(demoState, bob, 10, 0)` returns: `alice`'s
two posts, newest first. -/
def demoTimeline : List TimelineEntry :=
  [{ post := { id := 1, author_id := "alice", body := "second", created_at := 2 },
     author_id := "alice" },
   { post := { id := 0, author_id := "alice", body := "first", created_at := 1 },
     author_id := "alice" }]

/-- Witness for C3 at a concrete call: `get_timeline(demoState, bob, 10, 0)`
succeeds and its entries satisfy the pairwise ordering. -/
theorem timeline_entries_ordered_witness :
    WF demoState ∧ get_timeline demoState "bob" 10 0 = .ok demoTimeline ∧
    demoTimeline.Pairwise tlEntryOrdered :=
  ⟨by decide, by decide,
   timeline_entries_ordered demoState "bob" 10 0 demoTimeline (by decide) (by decide)⟩

/-- C4: every entry returned by `get_timeline(U, limit, offset)` has an
`author_id` inside the set of authors `U` follows — there is a stored
follow edge from `U` to the entry's author (self-inclusion is not
configured in the modelled core). -/
theorem timeline_authors_followed (s : CoreState) (u : String) (limit offset : Int)
    (entries : List TimelineEntry)
    (h : get_timeline s u limit offset = .ok entries) :
    ∀ e ∈ entries, e.author_id ∈ followingIds s u ∧
      ∃ ed ∈ s.edges, ed.follower_id = u ∧ ed.followed_id = e.author_id := by
  rw [get_timeline] at h
  split_ifs at h with hu hp
  simp only [Except.ok.injEq] at h
  subst h
  intro e he
  have he2 : e ∈ timelineAll s u :=
    List.Sublist.mem he ((List.take_sublist _ _).trans (List.drop_sublist _ _))
  rw [timelineAll] at he2
  simp only [List.mem_map] at he2
  obtain ⟨p, hmem, rfl⟩ := he2
  have hfilter : p ∈ s.posts.filter (fun q => q.author_id ∈ followingIds s u) :=
    ((List.perm_insertionSort tlBefore _).mem_iff).mp hmem
  have hauth := (List.mem_filter.mp hfilter).2
  simp only [decide_eq_true_eq] at hauth
  exact ⟨hauth, (mem_followingIds s u p.author_id).mp hauth⟩

/-- Witness for C4 at a concrete call: every entry of
`get_timeline(demoState, bob, 10, 0)` is authored by a followed user. -/
theorem timeline_authors_followed_witness :
    get_timeline demoState "bob" 10 0 = .ok demoTimeline ∧
    ∀ e ∈ demoTimeline, e.author_id ∈ followingIds demoState "bob" ∧
      ∃ ed ∈ demoState.edges, ed.follower_id = "bob" ∧ ed.followed_id = e.author_id :=
  ⟨by decide, timeline_authors_followed demoState "bob" 10 0 demoTimeline (by decide)⟩

/-- On a known user and non-negative pagination arguments, `get_timeline`
succeeds and returns the clamped window over the full merged feed. -/
theorem get_timeline_ok (s : CoreState) (u : String) (L O : Int)
    (hu : u ∈ s.users) (hL : 0 ≤ L) (hO : 0 ≤ O) :
    get_timeline s u L O =
      .ok (((timelineAll s u).drop O.toNat).take (min L.toNat maxTimelineLimit)) := by
  rw [get_timeline, if_pos hu, if_neg (by omega)]

/-- C5 (amended): pagination concatenation holds whenever both effective
limits are unaffected by the clamp, i.e. `0 ≤ L` and `2·L ≤ 100`:
`get_timeline(U, L, 0) ++ get_timeline(U, L, L) = get_timeline(U, 2·L, 0)`
on an unchanged store. -/
theorem timeline_pagination_concat_clamped (s : CoreState) (u : String) (L : Int)
    (hu : u ∈ s.users) (h0 : 0 ≤ L) (h2 : 2 * L ≤ 100) :
    ∃ t1 t2 t3,
      get_timeline s u L 0 = .ok t1 ∧ get_timeline s u L L = .ok t2 ∧
      get_timeline s u (2 * L) 0 = .ok t3 ∧ t1 ++ t2 = t3 := by
  refine ⟨_, _, _, get_timeline_ok s u L 0 hu h0 le_rfl,
    get_timeline_ok s u L L hu h0 h0,
    get_timeline_ok s u (2 * L) 0 hu (by omega) le_rfl, ?_⟩
  have hL50 : L.toNat ≤ 50 := by omega
  have h2L : (2 * L).toNat = L.toNat + L.toNat := by omega
  rw [h2L,
    Nat.min_eq_left (show L.toNat ≤ maxTimelineLimit by rw [maxTimelineLimit]; omega),
    Nat.min_eq_left (show L.toNat + L.toNat ≤ maxTimelineLimit by rw [maxTimelineLimit]; omega)]
  exact (List.take_add _ _ _).symm

/-- Witness for the amended C5 at a concrete call: pages of size 1 over
`demoState`'s two-entry timeline concatenate to the size-2 page. -/
theorem timeline_pagination_concat_clamped_witness :
    ("bob" ∈ demoState.users ∧ (0 : Int) ≤ 1 ∧ 2 * 1 ≤ (100 : Int)) ∧
    ∃ t1 t2 t3,
      get_timeline demoState "bob" 1 0 = .ok t1 ∧
      get_timeline demoState "bob" 1 1 = .ok t2 ∧
      get_timeline demoState "bob" (2 * 1) 0 = .ok t3 ∧ t1 ++ t2 = t3 :=
  ⟨by decide,
   timeline_pagination_concat_clamped demoState "bob" 1 (by decide) (by decide) (by decide)⟩

/-- 102 posts by the author `prolific`, one per tick. -/
def manyPosts : List Post :=
  (List.range 102).map (fun i =>
    { id := i, author_id := "prolific", body := "post", created_at := i })

/-- A state whose merged feed (102 entries) exceeds the 100-entry clamp:
`reader` follows `prolific`, who has authored 102 posts. -/
def bigState : CoreState :=
  { users := ["reader", "prolific"]
    posts := manyPosts
    edges := [{ follower_id := "reader", followed_id := "prolific", created_at := 0 }]
    next_post_id := 102
    clock := 103 }

/-- The clamped window of `bigState`'s feed at the given pagination. -/
def bigT (L O : Int) : List TimelineEntry :=
  ((timelineAll bigState "reader").drop O.toNat).take (min L.toNat maxTimelineLimit)

/-- Counterexample to C5 as stated, at `U = reader`, `L = 51` on
`bigState`: all three calls succeed, but the first two pages concatenate
to 102 entries while `get_timeline(reader, 2·51 = 102, 0)` is clamped to
100 entries, so the concatenation differs from the single large page. -/
theorem timeline_pagination_concat_counterexample :
    get_timeline bigState "reader" 51 0 = .ok (bigT 51 0) ∧
    get_timeline bigState "reader" 51 51 = .ok (bigT 51 51) ∧
    get_timeline bigState "reader" 102 0 = .ok (bigT 102 0) ∧
    bigT 51 0 ++ bigT 51 51 ≠ bigT 102 0 := by
  refine ⟨get_timeline_ok bigState "reader" 51 0 (by decide) (by decide) (by decide),
    get_timeline_ok bigState "reader" 51 51 (by decide) (by decide) (by decide),
    get_timeline_ok bigState "reader" 102 0 (by decide) (by decide) (by decide), ?_⟩
  intro h
  have hall : (timelineAll bigState "reader").length = 102 := by
    simp only [timelineAll, List.length_map, List.length_insertionSort]
    decide
  have hlen := congrArg List.length h
  rw [List.length_append] at hlen
  simp only [bigT, List.length_take, List.length_drop, hall, maxTimelineLimit] at hlen
  omega
